import Mathlib

/-!
Shallow embedding of the offline submission queue and synchronization engine of
the geogismaps/odk4 field-data-collection app.

Embedded code:
* `src/lib/offlineStorage` (found at src/src/lib/xmlParser.ts, lines 607-840):
  the IndexedDB-backed local durable store — object stores `submissions`
  (keyed by `id`, with a `by-sync-status` index over the `synced` field) and
  `formProgress` (keyed by `formId`), with operations `queueSubmission`,
  `getPendingSubmissions`, `markSubmissionSynced`, `updateSubmissionSyncError`,
  `deleteSubmission`, `saveFormProgress`, `getFormProgress`, `clearFormProgress`.
* `src/lib/backgroundSync.ts`: `syncPendingSubmissions` (one sync pass) and the
  `syncInProgress` single-flight flag of `registerSyncListener`.
* `src/lib/teableSync` (xmlParser.ts lines 452-606): `syncSubmissionToTeable`.
* `src/pages/FormCollect.tsx`: `handleSubmit` (online / offline submit paths).

External collaborators are modelled as pure state:
* An IndexedDB object store is a list of records with pairwise-distinct keys;
  `put` is an upsert (insert-or-overwrite by key) and `delete` a keyed
  removal.  An index holds only those records whose keyPath value converts to
  a valid IndexedDB key — numbers, strings, dates, binary data, and arrays of
  keys; a boolean is NOT a valid key, so a record whose keyPath yields a
  boolean is silently omitted from the index.  `getAllFromIndex` returns the
  indexed records whose key equals the query, in ascending primary-key order.
  The `by-sync-status` index has keyPath `synced`, at which the code stores a
  boolean (`queueSubmission` writes `synced: false`), so — although the
  repository's `DBSchema` interface declares the index key type as `number`
  and the code queries it with `0` — no record ever enters that index and the
  query always returns the empty array.  This dead index is the load-bearing
  defect behind several claims below.
* The Supabase `submissions` table is a list of rows keyed by `id`; `upsert`
  inserts or updates by primary key, `update ... eq('id', x)` maps over the
  rows with that id.  Per-call outcomes of the network (whether the primary
  upsert succeeds, whether the Teable push succeeds, the returned values and
  error texts) are supplied by an oracle `SyncEnv`, indexed by submission id.
* Asynchrony: the app is single-threaded and the pass drains items strictly
  sequentially, so a pass is a fold over the pending snapshot; the
  fire-and-forget Teable push only touches the remote table, so its effects
  are applied in line.  Exceptions are modelled by the oracles: every
  exception in the original is caught inside the pass, so the embedded pass
  is a total function.
-/

namespace Odk4

/-- An opaque answer payload: a mapping from field name to value. -/
abbrev Payload := List (String × String)

/-- A record of the IndexedDB `submissions` object store
(`OfflineDB['submissions']['value']` in offlineStorage). -/
structure SubRecord where
  id : String
  formId : String
  userId : Option String
  data : Payload
  createdAt : Nat
  synced : Bool
  syncAttempts : Nat
  lastSyncError : Option String
deriving DecidableEq

/-- A record of the IndexedDB `formProgress` object store
(`OfflineDB['formProgress']['value']`). -/
structure DraftRecord where
  formId : String
  data : Payload
  lastSaved : Nat
deriving DecidableEq

/-- A row of the Supabase `submissions` table
(`Database['public']['Tables']['submissions']['Row']`, the columns the core
reads or writes). -/
structure RemoteRecord where
  id : String
  form_id : String
  user_id : Option String
  data : Payload
  created_at : Nat
  synced_to_teable : Bool
  teable_record_id : Option String
  sync_error : Option String
deriving DecidableEq

/-! ### The `submissions` object store (offlineStorage) -/

/-- `db.put('submissions', r)`: IndexedDB put is an upsert by primary key. -/
def putRec (store : List SubRecord) (r : SubRecord) : List SubRecord :=
  r :: store.filter (fun s => s.id ≠ r.id)

/-- `db.get('submissions', k)`. -/
def getRec (store : List SubRecord) (k : String) : Option SubRecord :=
  store.find? (fun s => s.id = k)

/-- `db.delete('submissions', k)`: a no-op when the key is absent. -/
def deleteRec (store : List SubRecord) (k : String) : List SubRecord :=
  store.filter (fun s => s.id ≠ k)

/-- IndexedDB compares string keys lexicographically by code unit; this is
that comparison on the character-list view of the two keys. -/
def charListLE : List Char → List Char → Bool
  | [], _ => true
  | _ :: _, [] => false
  | a :: as, b :: bs =>
    if a.toNat < b.toNat then true
    else if b.toNat < a.toNat then false
    else charListLE as bs

/-- The IndexedDB primary-key order on `submissions` records: ordered by the
key `id`. -/
def idLE (a b : SubRecord) : Prop :=
  charListLE a.id.data b.id.data = true

instance : DecidableRel idLE :=
  fun a b => instDecidableEqBool (charListLE a.id.data b.id.data) true

/-- The JavaScript value shapes relevant to the `by-sync-status` index: the
booleans the code actually stores at the keyPath `synced`, and the numbers
the repository's `DBSchema` declares for the index and its query supplies. -/
inductive IndexValue
  | bool (b : Bool)
  | num (n : Nat)
deriving DecidableEq

/-- The value a `submissions` record carries at the `by-sync-status` index
keyPath `synced`: a boolean (`queueSubmission` stores `synced: false`,
`markSubmissionSynced` stores `synced: true`). -/
def syncedValue (r : SubRecord) : IndexValue :=
  .bool r.synced

/-- IndexedDB "convert a value to a key": a number is a valid key (as are
strings, dates, binary data and arrays of keys — none of which occur at this
keyPath); a boolean is not a valid key, the conversion fails, and a record
whose index keyPath yields an invalid key is omitted from that index. -/
def toIDBKey : IndexValue → Option Nat
  | .num n => some n
  | .bool _ => none

/-- Whether a record appears in the `by-sync-status` index under the queried
key `q`: it must have entered the index (its keyPath value converts to a
valid key) and its index key must equal `q`. -/
def matchesIndexQuery (r : SubRecord) (q : Nat) : Bool :=
  match toIDBKey (syncedValue r) with
  | some k => k == q
  | none => false

/-- `db.getAllFromIndex('submissions', 'by-sync-status', q)`: the indexed
records whose index key equals `q`, in IndexedDB result order — ascending
primary key among records sharing one index key.  Because every record's
keyPath value is a boolean, no record is ever in this index. -/
def getAllFromIndexSyncStatus (store : List SubRecord) (q : Nat) : List SubRecord :=
  List.insertionSort idLE (store.filter (fun s => matchesIndexQuery s q))

/-- `getPendingSubmissions()` (offlineStorage): queries the `by-sync-status`
index with key `0`. -/
def getPendingSubmissions (store : List SubRecord) : List SubRecord :=
  getAllFromIndexSyncStatus store 0

/-- `queueSubmission(submission)` (offlineStorage): `db.put` of a fresh record
with `createdAt = Date.now()`, `synced = false`, `syncAttempts = 0`.  `now`
stands for `Date.now()`. -/
def queueSubmission (store : List SubRecord) (id formId : String)
    (userId : Option String) (data : Payload) (now : Nat) : List SubRecord :=
  putRec store
    { id := id, formId := formId, userId := userId, data := data,
      createdAt := now, synced := false, syncAttempts := 0, lastSyncError := none }

/-- `markSubmissionSynced(submissionId)` (offlineStorage): read, set
`synced = true`, put back; a no-op when the record is absent. -/
def markSubmissionSynced (store : List SubRecord) (submissionId : String) :
    List SubRecord :=
  match getRec store submissionId with
  | some s => putRec store { s with synced := true }
  | none => store

/-- `updateSubmissionSyncError(submissionId, error)` (offlineStorage): read,
increment `syncAttempts`, overwrite `lastSyncError`, put back; a no-op when
the record is absent. -/
def updateSubmissionSyncError (store : List SubRecord) (submissionId : String)
    (error : String) : List SubRecord :=
  match getRec store submissionId with
  | some s =>
      putRec store
        { s with syncAttempts := s.syncAttempts + 1, lastSyncError := some error }
  | none => store

/-- `deleteSubmission(submissionId)` (offlineStorage). -/
def deleteSubmission (store : List SubRecord) (submissionId : String) :
    List SubRecord :=
  deleteRec store submissionId

/-! ### The `formProgress` object store (offlineStorage) -/

/-- `db.put('formProgress', r)`: upsert keyed by `formId`. -/
def putDraft (store : List DraftRecord) (r : DraftRecord) : List DraftRecord :=
  r :: store.filter (fun s => s.formId ≠ r.formId)

/-- `saveFormProgress(formId, data)` (offlineStorage); `now` stands for
`Date.now()`. -/
def saveFormProgress (store : List DraftRecord) (formId : String)
    (data : Payload) (now : Nat) : List DraftRecord :=
  putDraft store { formId := formId, data := data, lastSaved := now }

/-- `getFormProgress(formId)` (offlineStorage). -/
def getFormProgress (store : List DraftRecord) (formId : String) :
    Option DraftRecord :=
  store.find? (fun s => s.formId = formId)

/-- `clearFormProgress(formId)` (offlineStorage): `db.delete('formProgress', formId)`. -/
def clearFormProgress (store : List DraftRecord) (formId : String) :
    List DraftRecord :=
  store.filter (fun s => s.formId ≠ formId)

/-! ### The remote `submissions` table (Supabase) -/

/-- `supabase.from('submissions').upsert({id, form_id, user_id, data,
created_at})`: insert-or-update keyed by the primary key `id`.  Columns not in
the payload keep their previous values on a conflicting row; a fresh row takes
the table defaults (`synced_to_teable = false`, null `teable_record_id` and
`sync_error`). -/
def remoteUpsert (table : List RemoteRecord) (id form_id : String)
    (user_id : Option String) (data : Payload) (created_at : Nat) :
    List RemoteRecord :=
  match table.find? (fun r => r.id = id) with
  | some old =>
      { old with form_id := form_id, user_id := user_id, data := data,
                 created_at := created_at } :: table.filter (fun r => r.id ≠ id)
  | none =>
      { id := id, form_id := form_id, user_id := user_id, data := data,
        created_at := created_at, synced_to_teable := false,
        teable_record_id := none, sync_error := none }
        :: table.filter (fun r => r.id ≠ id)

/-- `supabase.from('submissions').insert({form_id, user_id, data})` of the
online submit path: appends a fresh row under a server-generated id. -/
def remoteInsert (table : List RemoteRecord) (id form_id : String)
    (user_id : Option String) (data : Payload) (created_at : Nat) :
    List RemoteRecord :=
  { id := id, form_id := form_id, user_id := user_id, data := data,
    created_at := created_at, synced_to_teable := false,
    teable_record_id := none, sync_error := none } :: table

/-- `update({synced_to_teable: true, teable_record_id, sync_error: null})
.eq('id', id)` — the success branch of `syncSubmissionToTeable`. -/
def remoteMarkTeableSynced (table : List RemoteRecord) (id recordId : String) :
    List RemoteRecord :=
  table.map fun r =>
    if r.id = id then
      { r with synced_to_teable := true, teable_record_id := some recordId,
               sync_error := none }
    else r

/-- `update({synced_to_teable: false, sync_error: msg}).eq('id', id)` — the
catch branch of `syncSubmissionToTeable`. -/
def remoteMarkTeableError (table : List RemoteRecord) (id msg : String) :
    List RemoteRecord :=
  table.map fun r =>
    if r.id = id then
      { r with synced_to_teable := false, sync_error := some msg }
    else r

/-- `supabase.from('submissions').select(...).eq('id', k)` of a single row. -/
def remoteGet (table : List RemoteRecord) (k : String) : Option RemoteRecord :=
  table.find? (fun r => r.id = k)

/-- Number of remote rows bearing a given identifier. -/
def countId (table : List RemoteRecord) (k : String) : Nat :=
  table.countP (fun r => decide (r.id = k))

/-- Oracle for the per-call outcomes of the two network collaborators,
indexed by submission id: whether the primary Supabase upsert succeeds and
its error text otherwise, and whether the Teable push succeeds, the Teable
record id it returns on success, and its error text otherwise. -/
structure SyncEnv where
  writeOk : String → Bool
  writeErrMsg : String → String
  teableOk : String → Bool
  teableRecId : String → String
  teableErrMsg : String → String

/-- `syncSubmissionToTeable(submissionId)` (teableSync): pushes the stored
remote row to the Teable HTTP API; on success it marks the row
`synced_to_teable` with the returned record id, on a push failure the
function's own catch records the error on the same remote row.  The whole
body sits in a try/catch, so the function never throws; it returns
`{success}`. -/
def syncSubmissionToTeable (env : SyncEnv) (table : List RemoteRecord)
    (submissionId : String) : List RemoteRecord × Bool :=
  if env.teableOk submissionId then
    (remoteMarkTeableSynced table submissionId (env.teableRecId submissionId), true)
  else
    (remoteMarkTeableError table submissionId (env.teableErrMsg submissionId), false)

/-! ### The sync pass (backgroundSync.ts) -/

/-- The mutable state a sync pass reads and writes: the local `submissions`
object store, the remote `submissions` table, and a ghost trace recording the
ids of the remote upserts the pass has issued, in issue order (used to state
ordering and exclusion properties; the original code has no such variable). -/
structure SyncState where
  store : List SubRecord
  remote : List RemoteRecord
  writeLog : List String
deriving DecidableEq

/-- The result record literal of `syncPendingSubmissions`. -/
structure SyncResults where
  success : Nat
  failed : Nat
  errors : List String
deriving DecidableEq

/-- The error string pushed by the retry-ceiling branch. -/
def maxAttemptsMsg (id : String) : String :=
  "Submission " ++ id ++ ": Max sync attempts exceeded"

/-- The error string pushed by the catch branch of the per-item loop. -/
def failMsg (id msg : String) : String :=
  "Submission " ++ id ++ ": " ++ msg

/-- The body of the `for (const submission of pending)` loop of
`syncPendingSubmissions`: skip (but count as failed) an item whose
`syncAttempts` has reached 5; otherwise issue the remote upsert keyed by the
item's id; on success fire the Teable push, mark the local record synced,
delete it, and count a success; on an upsert error record the failure on the
local record and count a failure.  Every throw is caught inside the loop
body.  (In the running program this body is dead code: the pending snapshot
it iterates is always empty.) -/
def processSubmission (env : SyncEnv) (acc : SyncState × SyncResults)
    (sub : SubRecord) : SyncState × SyncResults :=
  let st := acc.1
  let res := acc.2
  if 5 ≤ sub.syncAttempts then
    (st, { res with failed := res.failed + 1,
                    errors := res.errors ++ [maxAttemptsMsg sub.id] })
  else
    let st1 : SyncState := { st with writeLog := st.writeLog ++ [sub.id] }
    if env.writeOk sub.id then
      let remote1 := remoteUpsert st1.remote sub.id sub.formId sub.userId
        sub.data sub.createdAt
      let remote2 := (syncSubmissionToTeable env remote1 sub.id).1
      let store1 := markSubmissionSynced st1.store sub.id
      let store2 := deleteSubmission store1 sub.id
      ({ st1 with store := store2, remote := remote2 },
       { res with success := res.success + 1 })
    else
      let msg := env.writeErrMsg sub.id
      ({ st1 with store := updateSubmissionSyncError st1.store sub.id msg },
       { res with failed := res.failed + 1,
                  errors := res.errors ++ [failMsg sub.id msg] })

/-- `syncPendingSubmissions()` (backgroundSync.ts): snapshot the pending list
and drain it strictly sequentially, accumulating the `{success, failed,
errors}` summary.  This same function backs the automatic triggers and the
user-facing "Sync Now" button of the field-worker dashboard. -/
def syncPendingSubmissions (env : SyncEnv) (st : SyncState) :
    SyncState × SyncResults :=
  (getPendingSubmissions st.store).foldl (processSubmission env)
    (st, { success := 0, failed := 0, errors := [] })

/-! ### The single-flight orchestrator (registerSyncListener) -/

/-- The closure state of `registerSyncListener`: the `syncInProgress` flag,
plus two ghost counters — how many passes are currently draining and how many
passes have ever been started — used to state the single-flight property. -/
structure Orch where
  syncInProgress : Bool
  draining : Nat
  started : Nat
deriving DecidableEq

/-- The state just after `registerSyncListener` runs: flag down, nothing
draining. -/
def orchStart : Orch :=
  { syncInProgress := false, draining := 0, started := 0 }

/-- `triggerSync` up to its first suspension point: if a pass is in progress
or the browser is offline, return without starting a pass; otherwise raise
the flag and begin draining.  The guard and the flag assignment run with no
`await` between them, so on the single-threaded event loop they are atomic. -/
def triggerSync (online : Bool) (o : Orch) : Orch :=
  if o.syncInProgress || !online then o
  else { syncInProgress := true, draining := o.draining + 1,
         started := o.started + 1 }

/-- The `finally` block of `triggerSync`: lowers the flag whatever the pass
produced — the results (and any error the `try` swallowed) do not reach the
reset. -/
def passFinally (o : Orch) (_results : SyncResults) : Orch :=
  { syncInProgress := false, draining := o.draining - 1, started := o.started }

/-- The orchestrator invariant: the flag counts the draining passes. -/
def OrchInv (o : Orch) : Prop :=
  o.draining = if o.syncInProgress then 1 else 0

/-! ### The submit handler (FormCollect.tsx) -/

/-- The app state `handleSubmit` touches. -/
structure AppState where
  remote : List RemoteRecord
  store : List SubRecord
  drafts : List DraftRecord
deriving DecidableEq

/-- `handleSubmit` (FormCollect.tsx): when online, insert the submission
directly into the remote table (under a server-generated row id `serverId`),
fire the Teable push for it, and clear the draft; when offline, queue it
locally under the client-generated `submissionId` and clear the draft.  A
remote insert error is caught (`insertOk = false`): the handler alerts and
changes nothing.  Returns the new state and whether the submission
succeeded. -/
def handleSubmit (env : SyncEnv) (isOnline insertOk : Bool)
    (serverId submissionId formId : String) (userId : Option String)
    (values : Payload) (now : Nat) (st : AppState) : AppState × Bool :=
  if isOnline then
    if insertOk then
      let remote1 := remoteInsert st.remote serverId formId userId values now
      let remote2 := (syncSubmissionToTeable env remote1 serverId).1
      ({ st with remote := remote2,
                 drafts := clearFormProgress st.drafts formId }, true)
    else
      (st, false)
  else
    ({ st with store := queueSubmission st.store submissionId formId userId values now,
               drafts := clearFormProgress st.drafts formId }, true)

/-! ### Derived measures used by the statements -/

/-- Number of drafts stored for a given form identifier. -/
def countDrafts (store : List DraftRecord) (formId : String) : Nat :=
  store.countP (fun d => decide (d.formId = formId))

/-! ### Concrete data for witnesses, counterexamples and failing inputs -/

/-- A freshly queued offline submission. -/
def wRec : SubRecord :=
  { id := "a", formId := "f", userId := some "u", data := [("q", "1")],
    createdAt := 5, synced := false, syncAttempts := 0, lastSyncError := none }

/-- A queued submission that has exhausted its 5 attempts. -/
def ceilRec : SubRecord :=
  { id := "a", formId := "f", userId := none, data := [], createdAt := 3,
    synced := false, syncAttempts := 5, lastSyncError := some "boom" }

/-- A stale queued record, about to be overwritten by a same-id enqueue. -/
def staleRec : SubRecord :=
  { id := "a", formId := "f", userId := none, data := [("q", "old")],
    createdAt := 1, synced := false, syncAttempts := 3,
    lastSyncError := some "boom" }

/-- Oracle: every network call succeeds. -/
def wEnvAllOk : SyncEnv :=
  { writeOk := fun _ => true, writeErrMsg := fun _ => "werr",
    teableOk := fun _ => true, teableRecId := fun _ => "r1",
    teableErrMsg := fun _ => "terr" }

/-- Oracle: the primary remote write fails. -/
def wEnvWriteFail : SyncEnv :=
  { writeOk := fun _ => false, writeErrMsg := fun _ => "werr",
    teableOk := fun _ => true, teableRecId := fun _ => "r1",
    teableErrMsg := fun _ => "terr" }

/-- Oracle: the primary write succeeds but the Teable push fails. -/
def wEnvTeableFail : SyncEnv :=
  { writeOk := fun _ => true, writeErrMsg := fun _ => "werr",
    teableOk := fun _ => false, teableRecId := fun _ => "r1",
    teableErrMsg := fun _ => "terr" }

/-- One fresh pending submission, empty remote table. -/
def wSt : SyncState := { store := [wRec], remote := [], writeLog := [] }

/-- One exhausted pending submission, empty remote table. -/
def ceilSt : SyncState := { store := [ceilRec], remote := [], writeLog := [] }

/-- Queue `"b"` at time 1 and then `"a"` at time 2. -/
def demoStore : List SubRecord :=
  queueSubmission (queueSubmission [] "b" "f" none [] 1) "a" "f" none [] 2

/-- Two queued submissions, empty remote table. -/
def demoSt : SyncState := { store := demoStore, remote := [], writeLog := [] }

/-- App state with one saved draft for form `"f"`, about to be submitted. -/
def wApp : AppState :=
  { remote := [], store := [],
    drafts := [{ formId := "f", data := [("q", "1")], lastSaved := 1 }] }

/-! ### Basic facts about the object-store operations -/

theorem getRec_id {store : List SubRecord} {k : String} {s : SubRecord}
    (h : getRec store k = some s) : s.id = k := by
  unfold getRec at h
  have h2 := List.find?_some h
  simpa using h2

theorem getRec_putRec_self (store : List SubRecord) (r : SubRecord) :
    getRec (putRec store r) r.id = some r := by
  unfold getRec putRec
  rw [List.find?_cons_of_pos]
  simp

theorem getRec_deleteRec_ne (store : List SubRecord) {k j : String} (h : k ≠ j) :
    getRec (deleteRec store j) k = getRec store k := by
  induction store with
  | nil => rfl
  | cons s rest ih =>
    unfold getRec deleteRec at *
    by_cases hj : s.id = j
    · have hk : ¬ s.id = k := by
        rw [hj]
        exact fun hh => h hh.symm
      simp only [List.filter_cons, hj]
      rw [if_neg (by simp)]
      rw [List.find?_cons_of_neg _ (by simpa using hk)] at *
      exact ih
    · simp only [List.filter_cons]
      rw [if_pos (by simpa using hj)]
      by_cases hk : s.id = k
      · rw [List.find?_cons_of_pos _ (by simpa using hk),
          List.find?_cons_of_pos _ (by simpa using hk)]
      · rw [List.find?_cons_of_neg _ (by simpa using hk),
          List.find?_cons_of_neg _ (by simpa using hk)]
        exact ih

theorem getRec_putRec_ne (store : List SubRecord) (r : SubRecord) {k : String}
    (h : k ≠ r.id) : getRec (putRec store r) k = getRec store k := by
  unfold putRec
  show getRec (r :: deleteRec store r.id) k = getRec store k
  unfold getRec
  rw [List.find?_cons_of_neg _ (by simpa using Ne.symm h)]
  exact getRec_deleteRec_ne store h

theorem updateErr_absent (store : List SubRecord) {i : String} (e : String)
    (h : getRec store i = none) :
    updateSubmissionSyncError store i e = store := by
  unfold updateSubmissionSyncError
  rw [h]

theorem updateErr_present (store : List SubRecord) {i : String} (e : String)
    {s : SubRecord} (h : getRec store i = some s) :
    getRec (updateSubmissionSyncError store i e) i =
      some { s with syncAttempts := s.syncAttempts + 1, lastSyncError := some e } := by
  unfold updateSubmissionSyncError
  rw [h]
  have hid : s.id = i := getRec_id h
  have h2 := getRec_putRec_self store
    { s with syncAttempts := s.syncAttempts + 1, lastSyncError := some e }
  simpa [hid] using h2

/-! ### The dead index: no record ever matches the by-sync-status query -/

theorem matchesIndexQuery_false (r : SubRecord) (q : Nat) :
    matchesIndexQuery r q = false := rfl

/-- The pending snapshot is always empty: every record's `by-sync-status`
keyPath value is a boolean, booleans are not valid IndexedDB keys, so the
index contains no records and the query for key `0` matches nothing. -/
theorem getPendingSubmissions_nil (store : List SubRecord) :
    getPendingSubmissions store = [] := by
  unfold getPendingSubmissions getAllFromIndexSyncStatus
  have h : store.filter (fun s => matchesIndexQuery s 0) = [] := by
    simp [matchesIndexQuery_false]
  rw [h]
  rfl

/-- Consequently every sync pass — automatic or user-triggered — folds over
the empty list: it returns its input state unchanged, an all-zero summary,
and issues no remote write. -/
theorem syncPendingSubmissions_noop (env : SyncEnv) (st : SyncState) :
    syncPendingSubmissions env st =
      (st, { success := 0, failed := 0, errors := [] }) := by
  unfold syncPendingSubmissions
  rw [getPendingSubmissions_nil]
  rfl

/-! ### Draft-store facts -/

theorem getDraft_putDraft_self (store : List DraftRecord) (r : DraftRecord) :
    getFormProgress (putDraft store r) r.formId = some r := by
  unfold getFormProgress putDraft
  rw [List.find?_cons_of_pos]
  simp

theorem getDraft_clear_self (store : List DraftRecord) (F : String) :
    getFormProgress (clearFormProgress store F) F = none := by
  unfold getFormProgress clearFormProgress
  rw [List.find?_eq_none]
  intro d hd
  simp only [List.mem_filter] at hd
  simpa using hd.2

theorem countDrafts_filter_out (store : List DraftRecord) (F : String) :
    countDrafts (store.filter (fun d => d.formId ≠ F)) F = 0 := by
  unfold countDrafts
  rw [List.countP_eq_zero]
  intro d hd
  simp only [List.mem_filter] at hd
  simpa using hd.2

theorem countDrafts_putDraft_self (store : List DraftRecord) (r : DraftRecord) :
    countDrafts (putDraft store r) r.formId = 1 := by
  unfold putDraft countDrafts
  rw [List.countP_cons]
  have h2 := countDrafts_filter_out store r.formId
  unfold countDrafts at h2
  simp [h2]

theorem countDrafts_putDraft_ne (store : List DraftRecord) (r : DraftRecord)
    {G : String} (h : G ≠ r.formId) :
    countDrafts (putDraft store r) G ≤ countDrafts store G := by
  unfold putDraft countDrafts
  rw [List.countP_cons]
  have h1 : (decide (r.formId = G) : Bool) = false := by
    simpa using Ne.symm h
  rw [h1]
  simpa using List.Sublist.countP_le _ (store.filter_sublist)

/-! ## The claims -/

/-- C1: evidence for the code bug.  The sync pass can never drain a queued
submission: `queueSubmission` stores the boolean `synced` at the
`by-sync-status` keyPath, IndexedDB does not index boolean keys, so the
pending snapshot the pass iterates is always empty.  Every pass returns the
state unchanged with an all-zero summary; at the failing input — one freshly
queued submission `"a"` with every network call ready to succeed — the queue
still holds `"a"` intact, no upsert is issued, and no remote record bears the
identifier, against the claim that a completed pass leaves the queue without
`"a"` and exactly one remote record with it. -/
theorem sync_pass_never_drains_queue :
    (∀ (env : SyncEnv) (st : SyncState),
      syncPendingSubmissions env st =
        (st, { success := 0, failed := 0, errors := [] })) ∧
    getRec wSt.store "a" = some wRec ∧
    wRec.synced = false ∧
    getPendingSubmissions wSt.store = [] ∧
    syncPendingSubmissions wEnvAllOk wSt =
      (wSt, { success := 0, failed := 0, errors := [] }) ∧
    countId (syncPendingSubmissions wEnvAllOk wSt).1.remote "a" = 0 ∧
    (syncPendingSubmissions wEnvAllOk wSt).1.writeLog = [] :=
  ⟨syncPendingSubmissions_noop, by decide, rfl, by decide, by decide,
    by decide, by decide⟩

/-- C2: evidence for the code bug.  `getPendingSubmissions` always resolves
to the empty array whatever the store holds, because the records' boolean
`synced` values never enter the `by-sync-status` index.  At the failing input
— ids `"b"` queued at time 1 and `"a"` at time 2, both `synced = false` — the
store holds two unsynced records, yet the pending list is empty (so in
particular not those records oldest-first) and a pass issues no writes at
all. -/
theorem getPendingSubmissions_always_empty :
    (∀ store : List SubRecord, getPendingSubmissions store = []) ∧
    (demoStore.filter (fun s => s.synced = false)).length = 2 ∧
    getPendingSubmissions demoStore = [] ∧
    (syncPendingSubmissions wEnvAllOk demoSt).1.writeLog = [] :=
  ⟨getPendingSubmissions_nil, by decide, by decide, by decide⟩

/-- C3: evidence for the code bug.  An exhausted item (5 attempts) is indeed
retained and left unchanged by every pass — but contrary to the claim it does
not appear in `listPending`, which always returns the empty array (its
boolean `synced` key is never indexed), and it is not retried when the user
triggers "Sync Now": the dashboard button runs this very same
`syncPendingSubmissions`, which sees the empty snapshot — and whose loop body
would in any case skip items with 5 or more attempts, the code containing no
ceiling bypass for user-initiated passes. -/
theorem ceiling_item_retained_but_never_listed :
    getRec ceilSt.store "a" = some ceilRec ∧
    ceilRec.synced = false ∧
    getPendingSubmissions ceilSt.store = [] ∧
    syncPendingSubmissions wEnvAllOk ceilSt =
      (ceilSt, { success := 0, failed := 0, errors := [] }) ∧
    (syncPendingSubmissions wEnvAllOk ceilSt).1.writeLog = [] :=
  ⟨by decide, rfl, by decide, by decide, by decide⟩

/-- C4 counterexample: the queue holds a record under id `"a"` with 3 failed
attempts; enqueueing id `"a"` again replaces and resets it (IndexedDB `put`
has upsert semantics) — refuting "never overwrites an existing record". -/
theorem queueSubmission_overwrites_existing :
    getRec [staleRec] "a" = some staleRec ∧
    getRec (queueSubmission [staleRec] "a" "f" none [("q", "new")] 9) "a" =
      some { id := "a", formId := "f", userId := none, data := [("q", "new")],
             createdAt := 9, synced := false, syncAttempts := 0,
             lastSyncError := none } ∧
    getRec (queueSubmission [staleRec] "a" "f" none [("q", "new")] 9) "a" ≠
      some staleRec :=
  ⟨by decide, by decide, by decide⟩

/-- C4 (amended): `queueSubmission` persists the submission with
`synced = false` and attempt counter 0 and leaves every other identifier
untouched, but stores with upsert semantics: enqueueing an identifier already
present replaces and resets that record. -/
theorem queueSubmission_upsert_semantics (store : List SubRecord)
    (id formId : String) (userId : Option String) (data : Payload) (now : Nat) :
    getRec (queueSubmission store id formId userId data now) id =
      some { id := id, formId := formId, userId := userId, data := data,
             createdAt := now, synced := false, syncAttempts := 0,
             lastSyncError := none } ∧
    ∀ k : String, k ≠ id →
      getRec (queueSubmission store id formId userId data now) k =
        getRec store k := by
  exact ⟨getRec_putRec_self store _, fun k hk => getRec_putRec_ne store _ hk⟩

/-- C4 witness: the amended statement instantiated over a one-record store. -/
theorem queueSubmission_upsert_semantics_witness :
    getRec (queueSubmission [staleRec] "a" "f" none [] 9) "a" =
      some { id := "a", formId := "f", userId := none, data := [],
             createdAt := 9, synced := false, syncAttempts := 0,
             lastSyncError := none } ∧
    getRec (queueSubmission [staleRec] "a" "f" none [] 9) "b" =
      getRec [staleRec] "b" := by
  obtain ⟨h1, h2⟩ := queueSubmission_upsert_semantics [staleRec] "a" "f" none [] 9
  exact ⟨h1, h2 "b" (by decide)⟩

/-- C5: evidence for the code bug.  The claim's scenario — a primary remote
write succeeding for a queued submission and the Teable push then failing —
is unreachable in the running program: the pass sees an empty pending
snapshot, so the queued submission is never written to the remote store, the
queue length never decreases, and no server-side row exists on which the
Teable failure could be recorded.  At the failing input (one queued
submission, oracle accepting the primary write and failing the Teable push)
the pass is the identity with an all-zero summary. -/
theorem teable_failure_scenario_never_reached :
    getRec wSt.store "a" = some wRec ∧
    syncPendingSubmissions wEnvTeableFail wSt =
      (wSt, { success := 0, failed := 0, errors := [] }) ∧
    (syncPendingSubmissions wEnvTeableFail wSt).1.store.length =
      wSt.store.length ∧
    remoteGet (syncPendingSubmissions wEnvTeableFail wSt).1.remote "a" = none :=
  ⟨by decide, by decide, by decide, by decide⟩

/-- C6: single-flight orchestration.  (1) the orchestrator invariant holds at
registration; (2) `triggerSync` and (3) the `finally` reset preserve it;
(4) a trigger arriving while a pass is draining returns the state unchanged —
dropped, not queued; (5) under the invariant at most one pass is ever
draining after a trigger; (6) the `finally` reset lowers the flag whatever
the pass results were — even if every item failed; (7) hence a trigger right
after a pass ends starts a fresh pass. -/
theorem single_flight_orchestrator :
    OrchInv orchStart ∧
    (∀ (o : Orch) (b : Bool), OrchInv o → OrchInv (triggerSync b o)) ∧
    (∀ (o : Orch) (r : SyncResults), OrchInv o → OrchInv (passFinally o r)) ∧
    (∀ (o : Orch) (b : Bool), o.syncInProgress = true → triggerSync b o = o) ∧
    (∀ (o : Orch) (b : Bool), OrchInv o → (triggerSync b o).draining ≤ 1) ∧
    (∀ (o : Orch) (r : SyncResults), (passFinally o r).syncInProgress = false) ∧
    (∀ (o : Orch) (r : SyncResults),
      (triggerSync true (passFinally o r)).started = o.started + 1) := by
  refine ⟨rfl, ?_, ?_, ?_, ?_, fun o r => rfl, fun o r => ?_⟩
  · intro o b h
    unfold triggerSync
    by_cases hg : o.syncInProgress || !b
    · rw [if_pos hg]
      exact h
    · rw [if_neg hg]
      have hf : o.syncInProgress = false := by
        cases hh : o.syncInProgress
        · rfl
        · rw [hh] at hg
          simp at hg
      unfold OrchInv at *
      rw [hf] at h
      simp at h
      simp [h]
  · intro o r h
    unfold OrchInv passFinally at *
    by_cases hh : o.syncInProgress
    · simp only [hh, if_pos] at h
      simp [h]
    · simp only [hh, if_neg, Bool.false_eq_true] at h
      simp [h]
  · intro o b h
    unfold triggerSync
    rw [if_pos (by rw [h]; rfl)]
  · intro o b h
    unfold triggerSync
    by_cases hg : o.syncInProgress || !b
    · rw [if_pos hg]
      unfold OrchInv at h
      rw [h]
      by_cases hh : o.syncInProgress
      · simp [hh]
      · simp [hh]
    · rw [if_neg hg]
      have hf : o.syncInProgress = false := by
        cases hh : o.syncInProgress
        · rfl
        · rw [hh] at hg
          simp at hg
      unfold OrchInv at h
      rw [hf] at h
      simp at h
      simp [h]
  · unfold triggerSync passFinally
    simp

/-- C6 witness: the conjuncts instantiated at concrete orchestrator states —
a trigger during a draining pass is the identity, and the reset after a pass
with only failures lowers the flag. -/
theorem single_flight_orchestrator_witness :
    OrchInv orchStart ∧
    triggerSync true { syncInProgress := true, draining := 1, started := 4 } =
      { syncInProgress := true, draining := 1, started := 4 } ∧
    (passFinally (triggerSync true orchStart)
      { success := 0, failed := 3, errors := ["e1", "e2", "e3"] }).syncInProgress
      = false ∧
    (triggerSync true (passFinally (triggerSync true orchStart)
      { success := 0, failed := 3, errors := ["e1", "e2", "e3"] })).started =
      (triggerSync true orchStart).started + 1 := by
  obtain ⟨h1, h2, h3, h4, h5, h6, h7⟩ := single_flight_orchestrator
  exact ⟨h1, h4 _ true rfl, h6 _ _, h7 _ _⟩

/-- C7: the queue-manager half of the claim is true of the code —
`updateSubmissionSyncError` increments the attempt counter by exactly one and
stores the error message when the identifier is present, and is a no-op when
it is absent — but the pass-level half is a code bug: the loop iterates the
always-empty pending snapshot, so the pass never calls
`updateSubmissionSyncError` at all.  At the failing input — a queued
submission with the oracle failing every remote write — the pass is the
identity and the record keeps attempt counter 0 with no error message. -/
theorem recordFailure_correct_but_never_invoked :
    (∀ (store : List SubRecord) (i e : String), getRec store i = none →
      updateSubmissionSyncError store i e = store) ∧
    (∀ (store : List SubRecord) (i e : String) (s : SubRecord),
      getRec store i = some s →
      getRec (updateSubmissionSyncError store i e) i =
        some { s with syncAttempts := s.syncAttempts + 1,
                      lastSyncError := some e }) ∧
    (∀ (env : SyncEnv) (st : SyncState),
      syncPendingSubmissions env st =
        (st, { success := 0, failed := 0, errors := [] })) ∧
    getRec (syncPendingSubmissions wEnvWriteFail wSt).1.store "a" =
      some wRec := by
  refine ⟨fun store i e h => updateErr_absent store e h,
    fun store i e s h => updateErr_present store e h,
    syncPendingSubmissions_noop, by decide⟩

/-- C7 witness: the function-level conjuncts at concrete stores, and the
pass identity at the concrete failing input. -/
theorem recordFailure_correct_but_never_invoked_witness :
    updateSubmissionSyncError [] "a" "e" = [] ∧
    getRec (updateSubmissionSyncError [staleRec] "a" "e") "a" =
      some { staleRec with syncAttempts := 4, lastSyncError := some "e" } ∧
    syncPendingSubmissions wEnvWriteFail wSt =
      (wSt, { success := 0, failed := 0, errors := [] }) := by
  obtain ⟨h1, h2, h3, _⟩ := recordFailure_correct_but_never_invoked
  exact ⟨h1 [] "a" "e" rfl, h2 [staleRec] "a" "e" staleRec (by decide),
    h3 wEnvWriteFail wSt⟩

/-- C8: draft round-trip and overwrite semantics — saving a draft for form
`F` with payload `P` and reading it back yields a draft whose data is `P`;
after a save exactly one draft exists for `F`; the at-most-one-draft-per-form
invariant is preserved for every form identifier; re-saving for the same `F`
overwrites the previous draft. -/
theorem draft_roundtrip_and_overwrite (store : List DraftRecord) (F : String)
    (P Q : Payload) (t1 t2 : Nat) :
    getFormProgress (saveFormProgress store F P t1) F =
      some { formId := F, data := P, lastSaved := t1 } ∧
    countDrafts (saveFormProgress store F P t1) F = 1 ∧
    (∀ G : String, countDrafts store G ≤ 1 →
      countDrafts (saveFormProgress store F P t1) G ≤ 1) ∧
    getFormProgress (saveFormProgress (saveFormProgress store F P t1) F Q t2) F =
      some { formId := F, data := Q, lastSaved := t2 } := by
  refine ⟨getDraft_putDraft_self store _, countDrafts_putDraft_self store _,
    ?_, getDraft_putDraft_self _ _⟩
  intro G hG
  by_cases h : G = F
  · subst h
    exact le_of_eq (countDrafts_putDraft_self store _)
  · exact le_trans (countDrafts_putDraft_ne store _ h) hG

/-- C8 witness: a concrete save/read round-trip, the singleton-per-form
count, and an overwriting re-save. -/
theorem draft_roundtrip_and_overwrite_witness :
    getFormProgress (saveFormProgress [] "f" [("q", "1")] 1) "f" =
      some { formId := "f", data := [("q", "1")], lastSaved := 1 } ∧
    countDrafts (saveFormProgress [] "f" [("q", "1")] 1) "f" = 1 ∧
    countDrafts (saveFormProgress [] "f" [("q", "1")] 1) "g" ≤ 1 ∧
    getFormProgress (saveFormProgress (saveFormProgress [] "f" [("q", "1")] 1)
      "f" [("q", "2")] 2) "f" =
      some { formId := "f", data := [("q", "2")], lastSaved := 2 } := by
  obtain ⟨h1, h2, h3, h4⟩ :=
    draft_roundtrip_and_overwrite [] "f" [("q", "1")] [("q", "2")] 1 2
  exact ⟨h1, h2, h3 "g" (by decide), h4⟩

/-- C9: when `handleSubmit` reports success — the online direct-insert path
or the offline queueing path — no draft remains stored for the submitted
form identifier (both paths call `clearFormProgress`). -/
theorem draft_cleared_on_successful_submit (env : SyncEnv)
    (isOnline insertOk : Bool) (serverId submissionId formId : String)
    (userId : Option String) (values : Payload) (now : Nat) (st : AppState)
    (h : (handleSubmit env isOnline insertOk serverId submissionId formId
      userId values now st).2 = true) :
    getFormProgress (handleSubmit env isOnline insertOk serverId submissionId
      formId userId values now st).1.drafts formId = none := by
  unfold handleSubmit at h ⊢
  by_cases ho : isOnline = true
  · rw [if_pos ho] at h ⊢
    by_cases hi : insertOk = true
    · rw [if_pos hi]
      exact getDraft_clear_self _ _
    · rw [if_neg hi] at h
      simp at h
  · rw [if_neg ho] at h ⊢
    exact getDraft_clear_self _ _

/-- C9 witness: both the offline path and the online path clear the stored
draft for form `"f"`. -/
theorem draft_cleared_on_successful_submit_witness :
    (handleSubmit wEnvAllOk false true "s1" "sub1" "f" none
      [("q", "1")] 7 wApp).2 = true ∧
    getFormProgress (handleSubmit wEnvAllOk false true "s1" "sub1" "f" none
      [("q", "1")] 7 wApp).1.drafts "f" = none ∧
    (handleSubmit wEnvAllOk true true "s1" "sub1" "f" none
      [("q", "1")] 7 wApp).2 = true ∧
    getFormProgress (handleSubmit wEnvAllOk true true "s1" "sub1" "f" none
      [("q", "1")] 7 wApp).1.drafts "f" = none := by
  refine ⟨by decide, ?_, by decide, ?_⟩
  · exact draft_cleared_on_successful_submit wEnvAllOk false true "s1" "sub1"
      "f" none [("q", "1")] 7 wApp (by decide)
  · exact draft_cleared_on_successful_submit wEnvAllOk true true "s1" "sub1"
      "f" none [("q", "1")] 7 wApp (by decide)

/-- C10: evidence for the code bug.  The loop body of the pass would tally a
ceiling item as failed and push its "Max sync attempts exceeded" entry, but
that branch is unreachable: the pending snapshot is always empty.  At the
failing input — a store holding one exhausted item — the pass reports zero
failed, an empty errors list (no max-attempts entry), leaves the state
unchanged, and issues no write, against the claim that the item is counted in
the failed tally and contributes an errors entry in every automatic pass. -/
theorem ceiling_item_never_tallied :
    (syncPendingSubmissions wEnvAllOk ceilSt).2.failed = 0 ∧
    (syncPendingSubmissions wEnvAllOk ceilSt).2.errors = [] ∧
    maxAttemptsMsg "a" ∉ (syncPendingSubmissions wEnvAllOk ceilSt).2.errors ∧
    (syncPendingSubmissions wEnvAllOk ceilSt).1 = ceilSt ∧
    getRec ceilSt.store "a" = some ceilRec :=
  ⟨by decide, by decide, by decide, by decide, by decide⟩

end Odk4
